import Mathlib

/-!
Verification of the MCParr media-manager server (movie/series MCP server over
Radarr and Sonarr). The definitions below are a shallow embedding of the
TypeScript source: tool handlers become pure functions over explicit backend
responses (`Except`-valued, since every backend call can fail), JavaScript
truthiness tests on optional numeric/string arguments are made explicit, and
the paginated queue walk becomes a fuel-indexed recursion that also returns
the list of page numbers it requested.  Byte-count and duration formatting
(`formatBytes`, `formatTime`) is presentation-boundary output; the embedding
keeps the raw values those formatters would render.
-/

namespace MCParr

/-! ## JavaScript-style helpers -/

/-- JS truthiness for an optional number: `undefined` and `0` are falsy.
`truthyI o` is `some v` exactly when `o` holds a nonzero value. -/
def truthyI : Option ℤ → Option ℤ
  | some v => if v = 0 then none else some v
  | none => none

/-- JS truthiness for an optional nonnegative count (`undefined`/`0` falsy). -/
def truthyN : Option ℕ → Option ℕ
  | some v => if v = 0 then none else some v
  | none => none

/-- JS truthiness for an optional string: `undefined` and `""` are falsy. -/
def truthyS : Option String → Option String
  | some s => if s = "" then none else some s
  | none => none

/-- JS `a || b` on an optional string with a string default: the left operand
wins unless it is absent or empty. -/
def jsOr : Option String → String → String
  | some s, d => if s = "" then d else s
  | none, d => d

/-- A failed backend call: the error object carries the transport message and,
when the backend answered with an error body, `response.data.message`. -/
structure BErr where
  responseDataMessage : Option String
  message : String
deriving DecidableEq, Repr

/-- Result of running one tool handler: either the handler returned a content
payload (tagged result), or an exception escaped it uncaught. -/
inductive Handled (α : Type) where
  | content : α → Handled α
  | thrown : BErr → Handled α
deriving DecidableEq, Repr

/-! ## Filter pipeline (`applyFilters`) -/

/-- The optional filters accepted by `applyFilters`. -/
structure FilterOptions where
  year : Option ℤ
  title : Option String
  limit : Option ℕ
deriving DecidableEq, Repr

/-- Embedding of `applyFilters`: an optional exact-year predicate followed by
an optional result cap, both guarded by JS truthiness (so a `0` value disables
the corresponding step).  The item type is abstract, accessed through its
`year` field as in the TypeScript generic constraint. -/
def applyFilters {α : Type} (getYear : α → Option ℤ) (items : List α)
    (filters : Option FilterOptions) : List α :=
  match filters with
  | none => items
  | some fs =>
    let result := items
    let result :=
      match truthyI fs.year with
      | some _ => result.filter (fun it => getYear it == fs.year)
      | none => result
    match truthyN fs.limit with
    | some l => if result.length > l then result.take l else result
    | none => result

/-! ## Title normalization and fuzzy scoring (`check_status`, title branch) -/

/-- Is `c` a lower-case ASCII letter or digit — the characters kept by the
regex replace of `[^a-z0-9]` after lower-casing. -/
def lowerAlnum (c : Char) : Bool := ('a' ≤ c && c ≤ 'z') || ('0' ≤ c && c ≤ '9')

/-- Normalization: lower-case the title and strip every non-alphanumeric
character (the lower-casing followed by the regex replace of non-alphanumerics
with the empty string). -/
def normalize (s : String) : List Char := (s.data.map Char.toLower).filter lowerAlnum

/-- Does the list start with the given pattern (char-by-char comparison)? -/
def listStartsWith : List Char → List Char → Bool
  | _, [] => true
  | [], _ :: _ => false
  | a :: as, b :: bs => a == b && listStartsWith as bs

/-- JS `String.prototype.includes`: the needle occurs contiguously in the
haystack. -/
def jsIncludes : List Char → List Char → Bool
  | hay, needle =>
    listStartsWith hay needle ||
      match hay with
      | [] => false
      | _ :: t => jsIncludes t needle

/-- A movie record as the handlers see it.  Fields that a reduced
(lookup-produced) record may lack are optional; in particular `hasFile` is
only present on raw Radarr records. `ratings` and `added` are opaque
pass-through blobs. -/
structure Movieish where
  id : Option ℤ
  title : String
  year : Option ℤ
  monitored : Bool
  status : String
  hasFile : Option Bool
  sizeOnDisk : Option ℕ
  added : Option String
  ratings : Option String
  tmdbId : Option ℤ
deriving DecidableEq, Repr

/-- Score one candidate against the normalized input title and the raw
optional `year` argument, exactly as the fuzzy-match loop does: `+100` for
exact normalized equality, else `+50` for substring containment, and `+20`
more when a (truthy) year argument equals the year of the candidate. -/
def scoreCandidate (inputNorm : List Char) (year : Option ℤ) (m : Movieish) : ℕ :=
  let mTitle := normalize m.title
  let score : ℕ := 0
  let score :=
    if mTitle = inputNorm then score + 100
    else if jsIncludes mTitle inputNorm then score + 50
    else score
  if (truthyI year).isSome && (m.year == year) then score + 20 else score

/-- Comparison `score > bestScore` where `bestScore` starts at `-Infinity`
(modelled as `none`): any finite score beats the initial value. -/
def scoreGt (s : ℕ) : Option ℕ → Bool
  | none => true
  | some b => s > b

/-- The best-match selection loop: walk the candidates, replacing the current
best only on a strictly greater score. -/
def selectLoop (sc : Movieish → ℕ) : List Movieish → Movieish → Option ℕ → Movieish
  | [], best, _ => best
  | m :: rest, best, bestScore =>
    if scoreGt (sc m) bestScore then selectLoop sc rest m (some (sc m))
    else selectLoop sc rest best bestScore

/-- Title-based resolution over a nonempty candidate list `c :: cs`:
`bestMatch` starts at the first candidate and the loop scans the whole list. -/
def resolveByTitle (title : String) (year : Option ℤ) (c : Movieish)
    (cs : List Movieish) : Movieish :=
  selectLoop (scoreCandidate (normalize title) year) (c :: cs) c none

/-- The largest candidate score in a list (0 when empty; scores are ≥ 0). -/
def maxScore (sc : Movieish → ℕ) (l : List Movieish) : ℕ :=
  l.foldr (fun m a => max (sc m) a) 0

/-! ## JS numbers, `toFixed`, and the progress projection -/

/-- A JS arithmetic value: a finite number, or a non-finite result
(`NaN` / `±Infinity`), which is what an unguarded division by zero yields. -/
inductive JsNum where
  | num : ℚ → JsNum
  | undef : JsNum
deriving DecidableEq, Repr

/-- JS subtraction (finite operands stay finite). -/
def JsNum.sub : JsNum → JsNum → JsNum
  | num a, num b => num (a - b)
  | _, _ => undef

/-- JS multiplication on finite operands. -/
def JsNum.mul : JsNum → JsNum → JsNum
  | num a, num b => num (a * b)
  | _, _ => undef

/-- JS division: dividing by zero is not a finite number. -/
def JsNum.div : JsNum → JsNum → JsNum
  | num a, num b => if b = 0 then undef else num (a / b)
  | _, _ => undef

/-- Round half-up to the nearest integer, computably: `⌊q + 1/2⌋`. -/
def jsRound (q : ℚ) : ℤ := Int.fdiv (2 * q.num + (q.den : ℤ)) (2 * (q.den : ℤ))

/-- Left-pad a digit string with zeros to the given width. -/
def padZeros (d : ℕ) (s : String) : String :=
  if s.length ≥ d then s else String.mk (List.replicate (d - s.length) '0') ++ s

/-- JS `toFixed(d)` on a finite value: decimal rendering with exactly `d`
fraction digits. -/
def toFixedQ (d : ℕ) (q : ℚ) : String :=
  let n : ℤ := jsRound (q * ((10 : ℚ) ^ d))
  let a : ℕ := n.natAbs
  let sign := if n < 0 then "-" else ""
  if d = 0 then sign ++ toString a
  else sign ++ toString (a / 10 ^ d) ++ "." ++ padZeros d (toString (a % 10 ^ d))

/-- Lift of `toFixed` to JS values: a non-finite receiver renders as `"NaN"`. -/
def jsToFixed (d : ℕ) : JsNum → String
  | .num q => toFixedQ d q
  | .undef => "NaN"

/-- The queue-match progress projection:
when the size is positive, the percentage rendered to two decimals with a
percent-sign suffix, else the zero-percent sentinel. -/
def downloadProgress (size sizeleft : ℕ) : String :=
  if 0 < size then
    jsToFixed 2
      (JsNum.mul
        (JsNum.div (JsNum.sub (JsNum.num (size : ℚ)) (JsNum.num (sizeleft : ℚ)))
          (JsNum.num (size : ℚ)))
        (JsNum.num 100)) ++ "%"
  else "0%"

/-! ## Queue pagination (`check_status`, queue correlation) -/

/-- One row of the transfer queue as the handler reads it. -/
structure QueueItem where
  movieId : ℤ
  timeleft : String
  sizeleft : ℕ
  size : ℕ
  status : String
  title : String
deriving DecidableEq, Repr

/-- One `/queue?page=…&pageSize=100` response. -/
structure QueuePage where
  records : List QueueItem
  totalRecords : ℕ
deriving DecidableEq, Repr

/-- The fixed queue page size. -/
def pageSize : ℕ := 100

/-- The queue-scan match predicate: `item?.movieId === movie.id`. -/
def queueMatch (mid : Option ℤ) (it : QueueItem) : Bool := (some it.movieId : Option ℤ) == mid

/-- The do-while pagination loop, fuel-indexed.  Each call of `Bq page` is one
issued page request; the returned list records the pages requested, in order.
After fetching page `p` the loop continues exactly when no match was found on
it and `p * pageSize` is still below the `totalRecords` field of that same
response (`(page - 1) * pageSize < totalRecords` after `page++`).  A failed
page request propagates as the thrown error (no catch inside the loop). -/
def queueGo (Bq : ℕ → Except BErr QueuePage) (mid : Option ℤ) :
    ℕ → ℕ → Except BErr (Option QueueItem) × List ℕ
  | 0, _ => (.ok none, [])
  | fuel + 1, page =>
    match Bq page with
    | .error e => (.error e, [page])
    | .ok resp =>
      match resp.records.find? (queueMatch mid) with
      | some it => (.ok (some it), [page])
      | none =>
        if page * pageSize < resp.totalRecords then
          let next := queueGo Bq mid fuel (page + 1)
          (next.1, page :: next.2)
        else (.ok none, [page])

/-- The loop as the handler enters it: starting at page 1. -/
def queueLoop (Bq : ℕ → Except BErr QueuePage) (mid : Option ℤ) (fuel : ℕ) :
    Except BErr (Option QueueItem) × List ℕ :=
  queueGo Bq mid fuel 1

/-- A fixed queue served page by page: page `p` holds records
`(p-1)*pageSize … p*pageSize-1` and every response reports the true length of
the queue as `totalRecords`. -/
def pagesOf (queue : List QueueItem) : ℕ → Except BErr QueuePage :=
  fun page => .ok { records := (queue.drop ((page - 1) * pageSize)).take pageSize
                    totalRecords := queue.length }

/-! ## Movie status assembly (`check_status`, movie branch) -/

/-- The queue sub-object of a status snapshot.  `timeleft` and `sizeleft` are
kept raw; the handler renders them with `formatTime`/`formatBytes` at the
presentation boundary. -/
structure QueueProj where
  timeleftRaw : String
  sizeleftRaw : ℕ
  status : String
  title : String
  downloadProgress : String
deriving DecidableEq, Repr

/-- The movie status snapshot.  `none` in `size`/`added`/`ratings`/`queue`
stands for the initial placeholders (`"N/A"`, `[]`, `{}`). -/
structure MovieStatus where
  monitored : Bool
  status : String
  hasFile : Option Bool
  in_queue : Bool
  size : Option ℕ
  added : Option String
  ratings : Option String
  queue : Option QueueProj
deriving DecidableEq, Repr

/-- Assemble the movie status snapshot from a resolved record: disk presence
(`movie.hasFile` truthy) fills the on-disk fields and skips the queue walk
entirely; otherwise the queue is paged for a matching entry.  Returns the
snapshot (or the error a page fetch threw) together with the pages
requested. -/
def assembleMovieStatus (movie : Movieish) (Bq : ℕ → Except BErr QueuePage)
    (fuel : ℕ) : Except BErr MovieStatus × List ℕ :=
  let base : MovieStatus :=
    { monitored := movie.monitored
      status := movie.status
      hasFile := movie.hasFile
      in_queue := false
      size := none
      added := none
      ratings := none
      queue := none }
  if movie.hasFile = some true then
    (.ok { base with size := movie.sizeOnDisk, added := movie.added, ratings := movie.ratings },
     [])
  else
    let res := queueLoop Bq movie.id fuel
    match res.1 with
    | .error e => (.error e, res.2)
    | .ok none => (.ok base, res.2)
    | .ok (some it) =>
      (.ok { base with
               in_queue := true
               queue := some { timeleftRaw := it.timeleft
                               sizeleftRaw := it.sizeleft
                               status := it.status
                               title := it.title
                               downloadProgress := downloadProgress it.size it.sizeleft } },
       res.2)

/-! ## The `check_status` handler -/

/-- A series record as the handler reads it. -/
structure SeriesStats where
  percentOfEpisodes : Option ℚ
deriving DecidableEq, Repr

/-- A Sonarr series record (fields the handler touches). -/
structure Seriesish where
  id : Option ℤ
  monitored : Bool
  status : String
  statistics : Option SeriesStats
  tvdbId : Option ℤ
  hasFile : Option Bool
deriving DecidableEq, Repr

/-- The Radarr calls `check_status` can make, as given responses:
point lookup, the full listing, the title lookup (already reduced and
filtered), and the queue pages. -/
structure RadarrOps where
  getMovie : ℤ → Except BErr Movieish
  listMovies : Except BErr (List Movieish)
  lookupMovies : Except BErr (List Movieish)
  queuePage : ℕ → Except BErr QueuePage

/-- The Sonarr calls `check_status` can make. -/
structure SonarrOps where
  getSeries : ℤ → Except BErr Seriesish
  listSeries : Except BErr (List Seriesish)

/-- The arguments of one `check_status` call. -/
structure CheckArgs where
  id : Option ℤ
  tmdbId : Option ℤ
  tvdbId : Option ℤ
  title : Option String
  year : Option ℤ
deriving DecidableEq, Repr

/-- The distinct content payloads `check_status` can return (each rendered to
a text block by the transport layer). -/
inductive CheckStatusBody where
  | movieStatus : MovieStatus → CheckStatusBody
  | seriesStatus : Bool → String → Option ℚ → CheckStatusBody
  | notFoundTmdb : ℤ → CheckStatusBody
  | notFoundTitle : String → CheckStatusBody
  | badMovieArgs : CheckStatusBody
  | notFoundTvdb : ℤ → CheckStatusBody
  | badSeriesArgs : CheckStatusBody
  | undefinedStatus : CheckStatusBody
  | errorCaught : String → CheckStatusBody
deriving DecidableEq, Repr

/-- Movie identity resolution inside `check_status`: internal id, then TMDB
id against the full listing, then fuzzy title match over the lookup results
that carry an id.  `Sum.inl` is an early-returned body, `Sum.inr` the
resolved record. -/
def resolveMovie (a : CheckArgs) (R : RadarrOps) :
    Except BErr (CheckStatusBody ⊕ Movieish) :=
  match truthyI a.id with
  | some i =>
    match R.getMovie i with
    | .error e => .error e
    | .ok m => .ok (Sum.inr m)
  | none =>
    match truthyI a.tmdbId with
    | some t =>
      match R.listMovies with
      | .error e => .error e
      | .ok lst =>
        match lst.find? (fun m => m.tmdbId == some t) with
        | some m => .ok (Sum.inr m)
        | none => .ok (Sum.inl (.notFoundTmdb t))
    | none =>
      match truthyS a.title with
      | some ttl =>
        match R.lookupMovies with
        | .error e => .error e
        | .ok results =>
          match results.filter (fun m => (truthyI m.id).isSome) with
          | [] => .ok (Sum.inl (.notFoundTitle ttl))
          | c :: cs => .ok (Sum.inr (resolveByTitle ttl a.year c cs))
      | none => .ok (Sum.inl .badMovieArgs)

/-- Series identity resolution inside `check_status`: internal id, then TVDB
id against the full listing. -/
def resolveSeries (a : CheckArgs) (S : SonarrOps) :
    Except BErr (CheckStatusBody ⊕ Seriesish) :=
  match truthyI a.id with
  | some i =>
    match S.getSeries i with
    | .error e => .error e
    | .ok s => .ok (Sum.inr s)
  | none =>
    match truthyI a.tvdbId with
    | some t =>
      match S.listSeries with
      | .error e => .error e
      | .ok lst =>
        match lst.find? (fun s => s.tvdbId == some t) with
        | some s => .ok (Sum.inr s)
        | none => .ok (Sum.inl (.notFoundTvdb t))
    | none => .ok (Sum.inl .badSeriesArgs)

/-- The body of the `check_status` try-block. -/
def checkStatusTry (mediaType : String) (a : CheckArgs) (R : RadarrOps)
    (S : SonarrOps) (fuel : ℕ) : Except BErr CheckStatusBody :=
  if mediaType = "movie" then
    match resolveMovie a R with
    | .error e => .error e
    | .ok (Sum.inl body) => .ok body
    | .ok (Sum.inr movie) =>
      match (assembleMovieStatus movie R.queuePage fuel).1 with
      | .error e => .error e
      | .ok st => .ok (.movieStatus st)
  else if mediaType = "series" then
    match resolveSeries a S with
    | .error e => .error e
    | .ok (Sum.inl body) => .ok body
    | .ok (Sum.inr series) =>
      .ok (.seriesStatus series.monitored series.status
            (series.statistics.bind (fun st => st.percentOfEpisodes)))
  else .ok .undefinedStatus

/-- The message rendered by the catch block:
`err?.response?.data?.message || err.message` behind a fixed preamble. -/
def checkStatusErrText (e : BErr) : String :=
  "❌ An error occurred while checking status: " ++ jsOr e.responseDataMessage e.message

/-- The full `check_status` handler: the try-block wrapped by the catch that
turns any thrown backend error into a tagged error payload. -/
def checkStatus (mediaType : String) (a : CheckArgs) (R : RadarrOps)
    (S : SonarrOps) (fuel : ℕ) : Handled CheckStatusBody :=
  match checkStatusTry mediaType a R S fuel with
  | .error e => .content (.errorCaught (checkStatusErrText e))
  | .ok body => .content body

/-! ## The `get_activity` handler -/

/-- One raw activity-queue row. -/
structure ActivityItem where
  size : ℕ
  sizeleft : ℕ
deriving DecidableEq, Repr

/-- One summarized activity row: the derived progress string plus the raw
item (`formatBytes` of `sizeLeft` is presentation output). -/
structure ActivitySummary where
  progress : String
  item : ActivityItem
deriving DecidableEq, Repr

/-- The per-item summary map of `get_activity`. -/
def summarizeActivity (it : ActivityItem) : ActivitySummary :=
  { progress :=
      if 0 < it.size then
        toFixedQ 1 ((it.sizeleft : ℚ) / (it.size : ℚ) * 100) ++ "% remaining"
      else "Progress unknown"
    item := it }

/-- Content payloads of `get_activity`. -/
inductive ActivityBody where
  | rejected : ActivityBody
  | empty : String → ActivityBody
  | summary : String → List ActivitySummary → ActivityBody
deriving DecidableEq, Repr

/-- The `get_activity` handler.  There is no try/catch around the queue
fetch: a failed backend call escapes the handler as a thrown error. -/
def getActivity (service : String)
    (radarrQueue sonarrQueue : Except BErr (List ActivityItem)) :
    Handled ActivityBody :=
  if service = "radarr" || service = "movies" then
    match radarrQueue with
    | .error e => .thrown e
    | .ok queue =>
      if queue.isEmpty then .content (.empty service)
      else .content (.summary service (queue.map summarizeActivity))
  else if service = "sonarr" || service = "series" then
    match sonarrQueue with
    | .error e => .thrown e
    | .ok queue =>
      if queue.isEmpty then .content (.empty service)
      else .content (.summary service (queue.map summarizeActivity))
  else .content .rejected

/-! ## The `get_wanted` handler -/

/-- The service synonyms the handler compares against. -/
def radarrSynonyms : List String := ["movie", "movies", "radarr", "radar"]

/-- The service synonyms that pass the `get_wanted` validation. -/
def sonarrSynonyms : List String := ["serie", "series", "sonar", "sonarr"]

/-- The two wanted/missing endpoints. -/
inductive WantedEndpoint where
  | radarrMissing : WantedEndpoint
  | sonarrMissing : WantedEndpoint
deriving DecidableEq, Repr

/-- Content payloads of `get_wanted` (records kept as opaque blobs). -/
inductive WantedBody where
  | rejected : WantedBody
  | noneMissing : String → WantedBody
  | list : String → List String → WantedBody
deriving DecidableEq, Repr

/-- The `get_wanted` handler: the endpoint is chosen by membership in the
movie-synonym list, but the validation rejects every service outside the
series-synonym list before any request; the list of endpoints actually
requested is returned alongside.  No try/catch: a failed fetch escapes. -/
def getWanted (service : String)
    (fetch : WantedEndpoint → Except BErr (List String)) :
    Handled WantedBody × List WantedEndpoint :=
  let endpoint :=
    if radarrSynonyms.contains service then WantedEndpoint.radarrMissing
    else WantedEndpoint.sonarrMissing
  if (sonarrSynonyms.contains service) = false then (.content .rejected, [])
  else
    match fetch endpoint with
    | .error e => (.thrown e, [endpoint])
    | .ok records =>
      if records.isEmpty then (.content (.noneMissing service), [endpoint])
      else (.content (.list service records), [endpoint])

/-! ## The `request_download` handler (acquisition) -/

/-- A movie listing entry as the idempotency guard reads it. -/
structure MovieLibRec where
  tmdbId : ℤ
  hasFile : Bool
deriving DecidableEq, Repr

/-- A series listing entry as the idempotency guard reads it.  The code never
reads `hasFile` on this path, but the record carries one. -/
structure SeriesLibRec where
  tvdbId : ℤ
  hasFile : Bool
deriving DecidableEq, Repr

/-- The listings of the two backends, read at the start of a `request_download`. -/
structure LibState where
  movies : List MovieLibRec
  series : List SeriesLibRec
deriving DecidableEq, Repr

/-- A create command issued to a backend. -/
inductive CreateCmd where
  | movie : ℤ → CreateCmd
  | series : ℤ → CreateCmd
deriving DecidableEq, Repr

/-- Arguments of one `request_download` call. -/
structure DlArgs where
  tmdbId : Option ℤ
  tvdbId : Option ℤ
deriving DecidableEq, Repr

/-- The `request_download` handler: scan the relevant listing for the
external id; when found, return the corresponding already-present message
(movies distinguish `hasFile`, series do not) with no create; when absent,
issue the create command and report success. -/
def requestDownload (args : DlArgs) (st : LibState) : String × List CreateCmd :=
  match truthyI args.tmdbId with
  | some t =>
    match st.movies.find? (fun m => m.tmdbId == t) with
    | some m =>
      if m.hasFile then ("✅ Movie already exists in your library and is downloaded.", [])
      else ("⏳ Movie is already in the library and may be downloading.", [])
    | none =>
      ("🎬 Download request for movie (TMDB ID: " ++ toString t ++ ") sent successfully.",
       [CreateCmd.movie t])
  | none =>
    match truthyI args.tvdbId with
    | some t =>
      match st.series.find? (fun s => s.tvdbId == t) with
      | some _ => ("✅ Series already exists in your library.", [])
      | none =>
        ("📺 Download request for series (TVDB ID: " ++ toString t ++ ") sent successfully.",
         [CreateCmd.series t])
    | none => ("❌ Please provide a valid tmdbId for movie or tvdbId for series.", [])

/-- Environment model of how the backend reacts to accepted create commands,
from the idempotency scenario of the spec (the second call observes the
listing entry resulting from the first): each accepted create adds a listing entry carrying
the requested external id (with no file yet). -/
def applyCreates (st : LibState) (cmds : List CreateCmd) : LibState :=
  cmds.foldl
    (fun s c =>
      match c with
      | .movie t => { s with movies := s.movies ++ [{ tmdbId := t, hasFile := false }] }
      | .series t => { s with series := s.series ++ [{ tvdbId := t, hasFile := false }] })
    st

/-! ## Fixtures -/

/-- "The Matrix" (1999), as a library candidate. -/
def theMatrix : Movieish :=
  { id := some 1, title := "The Matrix", year := some 1999, monitored := true
    status := "released", hasFile := none, sizeOnDisk := none, added := none
    ratings := none, tmdbId := some 603 }

/-- "The Matrix Reloaded" (2003), as a library candidate. -/
def theMatrixReloaded : Movieish :=
  { id := some 2, title := "The Matrix Reloaded", year := some 2003, monitored := true
    status := "released", hasFile := none, sizeOnDisk := none, added := none
    ratings := none, tmdbId := some 604 }

/-- A movie record that already has a file on disk. -/
def movieOnDisk : Movieish :=
  { id := some 7, title := "Inception", year := some 2010, monitored := true
    status := "released", hasFile := some true, sizeOnDisk := some 2000000
    added := some "2024-01-01", ratings := some "imdb 8.8", tmdbId := some 27205 }

/-- A library whose series listing holds TVDB id 5 with a file on disk. -/
def libSeriesWithFile : LibState :=
  { movies := [], series := [{ tvdbId := 5, hasFile := true }] }

/-- The same library except the series record has no file. -/
def libSeriesNoFile : LibState :=
  { movies := [], series := [{ tvdbId := 5, hasFile := false }] }

/-- A placeholder queue row used to build concrete queues. -/
def queueItemEx : QueueItem :=
  { movieId := 0, timeleft := "", sizeleft := 0, size := 0, status := "", title := "" }

/-- A backend whose every queue page is empty but reports 150 total records. -/
def flat150 : ℕ → Except BErr QueuePage :=
  fun _ => .ok { records := [], totalRecords := 150 }

/-- A transport failure with no backend-provided message. -/
def connRefused : BErr := { responseDataMessage := none, message := "ECONNREFUSED" }

/-! ## Claim theorems -/

/-- Claim C10: in `applyFilters`, a result cap of `0` disables the cap — the
pipeline returns exactly the items surviving the year predicate — and a year
filter of `0` behaves as if no year filter were supplied. -/
theorem applyFilters_zero_disables {α : Type} (getYear : α → Option ℤ)
    (items : List α) (yr : Option ℤ) (ttl : Option String) (lim : Option ℕ) :
    applyFilters getYear items (some ⟨yr, ttl, some 0⟩) =
      (match truthyI yr with
       | some _ => items.filter (fun it => getYear it == yr)
       | none => items)
    ∧ applyFilters getYear items (some ⟨some 0, ttl, lim⟩) =
        applyFilters getYear items (some ⟨none, ttl, lim⟩) := by
  constructor
  · simp only [applyFilters, truthyN]
    rfl
  · simp only [applyFilters, truthyI]
    rfl

/-- Claim C3: the fuzzy score decomposes as a title bonus (100 for exact
normalized equality, else 50 for substring containment, exclusively) plus a
20-point year bonus, so a score never exceeds 120; and on the spec example
(candidates "The Matrix" (1999) and "The Matrix Reloaded" (2003), input title
"Matrix" with year 1999) resolution selects "The Matrix". -/
theorem titleScoring_spec :
    (∀ (i : List Char) (y : Option ℤ) (m : Movieish),
       scoreCandidate i y m =
         (if normalize m.title = i then 100
          else if jsIncludes (normalize m.title) i then 50 else 0)
         + (if (truthyI y).isSome && (m.year == y) then 20 else 0)
       ∧ scoreCandidate i y m ≤ 120)
    ∧ resolveByTitle "Matrix" (some 1999) theMatrix [theMatrixReloaded] = theMatrix := by
  constructor
  · intro i y m
    constructor
    · simp only [scoreCandidate]
      split <;> split <;> simp
    · simp only [scoreCandidate]
      split <;> split <;> try split
      all_goals omega
  · decide

/-- Claim C6: the derived `downloadProgress` is the guarded formula — with
`total = 0` it is exactly the `"0%"` sentinel, and with `total > 0` the JS
division is a finite number (never `NaN`) rendered to two decimals with a
`%` suffix. -/
theorem downloadProgress_guard (size sizeleft : ℕ) :
    (size = 0 → downloadProgress size sizeleft = "0%")
    ∧ (0 < size →
        JsNum.div (JsNum.sub (JsNum.num (size : ℚ)) (JsNum.num (sizeleft : ℚ)))
            (JsNum.num (size : ℚ))
          = JsNum.num (((size : ℚ) - (sizeleft : ℚ)) / (size : ℚ))
        ∧ downloadProgress size sizeleft
            = toFixedQ 2 (((size : ℚ) - (sizeleft : ℚ)) / (size : ℚ) * 100) ++ "%") := by
  constructor
  · intro h
    simp [downloadProgress, h]
  · intro h
    have hq : ((size : ℚ)) ≠ 0 := by
      exact_mod_cast Nat.pos_iff_ne_zero.mp h
    constructor
    · simp [JsNum.sub, JsNum.div, hq]
    · simp [downloadProgress, h, JsNum.sub, JsNum.div, JsNum.mul, jsToFixed, hq]

/-- Witness for C6: at `total = 0` the sentinel is produced, and at
`total = 4, remaining = 1` the two-decimal percentage is produced. -/
theorem downloadProgress_guard_witness :
    downloadProgress 0 5 = "0%"
    ∧ downloadProgress 4 1
        = toFixedQ 2 ((((4 : ℕ) : ℚ) - ((1 : ℕ) : ℚ)) / ((4 : ℕ) : ℚ) * 100) ++ "%" :=
  ⟨(downloadProgress_guard 0 5).1 rfl, ((downloadProgress_guard 4 1).2 (by norm_num)).2⟩

/-- Bridge between the Boolean `contains` test the handler runs and list
membership. -/
lemma contains_eq_false_iff (l : List String) (a : String) :
    l.contains a = false ↔ a ∉ l := by
  simp [List.contains, List.elem_eq_mem]

/-- The two synonym lists are disjoint: a service accepted by the `get_wanted`
validation never selects the movie endpoint. -/
lemma sonarr_not_radarr (s : String) (h : s ∈ sonarrSynonyms) :
    s ∉ radarrSynonyms := by
  simp only [sonarrSynonyms, List.mem_cons, List.not_mem_nil, or_false] at h
  rcases h with h | h | h | h <;> subst h <;> decide

/-- Claim C9: every `get_wanted` call whose service is not a series synonym —
"radarr" included — is rejected with no backend request, and no `get_wanted`
call ever requests the wanted endpoint of the movie backend. -/
theorem getWanted_never_radarr (service : String)
    (fetch : WantedEndpoint → Except BErr (List String)) :
    ((sonarrSynonyms.contains service) = false →
      getWanted service fetch = (.content .rejected, []))
    ∧ WantedEndpoint.radarrMissing ∉ (getWanted service fetch).2 := by
  constructor
  · intro h
    have h' : service ∉ sonarrSynonyms := (contains_eq_false_iff _ _).mp h
    simp [getWanted, h']
  · by_cases hm : service ∈ sonarrSynonyms
    · have hr : service ∉ radarrSynonyms := sonarr_not_radarr service hm
      rcases hf : fetch WantedEndpoint.sonarrMissing with e | records
      · simp [getWanted, hm, hr, hf]
      · by_cases he : records = [] <;> simp [getWanted, hm, hr, hf, he]
    · simp [getWanted, hm]

/-- Witness for C9: the advertised service name "radarr" itself is rejected
before any request is issued. -/
theorem getWanted_never_radarr_witness :
    getWanted "radarr" (fun _ => .ok []) = (.content .rejected, []) :=
  (getWanted_never_radarr "radarr" (fun _ => .ok [])).1 (by decide)

/-- Claim C2: disk presence short-circuits queue correlation — a record with
a file yields the on-disk snapshot with zero queue page requests, and any
snapshot reporting `in_queue = true` carries none of the on-disk metadata. -/
theorem checkStatus_disk_queue_exclusive (movie : Movieish)
    (Bq : ℕ → Except BErr QueuePage) (fuel : ℕ) :
    (movie.hasFile = some true →
      (assembleMovieStatus movie Bq fuel).2 = []
      ∧ (assembleMovieStatus movie Bq fuel).1
          = .ok { monitored := movie.monitored, status := movie.status
                  hasFile := movie.hasFile, in_queue := false
                  size := movie.sizeOnDisk, added := movie.added
                  ratings := movie.ratings, queue := none })
    ∧ (∀ st, (assembleMovieStatus movie Bq fuel).1 = .ok st → st.in_queue = true →
        st.size = none ∧ st.added = none ∧ st.ratings = none) := by
  constructor
  · intro h
    simp [assembleMovieStatus, h]
  · intro st hok hq
    by_cases h : movie.hasFile = some true
    · simp only [assembleMovieStatus, h, if_true] at hok
      cases hok
      simp at hq
    · simp only [assembleMovieStatus, h, if_false] at hok
      rcases hres : (queueLoop Bq movie.id fuel).1 with e | it
      · rw [hres] at hok
        cases hok
      · rcases it with _ | it <;> rw [hres] at hok <;> cases hok <;> simp at hq ⊢

/-- Witness for C2: an on-disk movie produces no queue request and the
on-disk snapshot. -/
theorem checkStatus_disk_queue_exclusive_witness :
    (assembleMovieStatus movieOnDisk (pagesOf []) 5).2 = []
    ∧ (assembleMovieStatus movieOnDisk (pagesOf []) 5).1
        = .ok { monitored := movieOnDisk.monitored, status := movieOnDisk.status
                hasFile := movieOnDisk.hasFile, in_queue := false
                size := movieOnDisk.sizeOnDisk, added := movieOnDisk.added
                ratings := movieOnDisk.ratings, queue := none } :=
  (checkStatus_disk_queue_exclusive movieOnDisk (pagesOf []) 5).1 rfl

/-- Counterexample to C1 as stated: for a series already in the library, the
report does not distinguish "already on disk" from "already enqueued" — the
handler output is identical whether or not the record has a file (though no
create command is issued either way). -/
theorem requestDownload_series_not_distinguished :
    requestDownload { tmdbId := none, tvdbId := some 5 } libSeriesWithFile
      = requestDownload { tmdbId := none, tvdbId := some 5 } libSeriesNoFile
    ∧ (requestDownload { tmdbId := none, tvdbId := some 5 } libSeriesWithFile).2 = [] := by
  decide

/-- Claim C1 (amended): when the listing already holds the requested external
id, `request_download` issues no create command; on the movie path the
already-present report distinguishes the record having a file from not, while
on the series path a single already-exists report is returned regardless of
the file state; and two successive calls for the same arguments never issue
two create commands. -/
theorem requestDownload_idempotent_amended (args : DlArgs) (st : LibState) :
    ((requestDownload args st).2.length
      + (requestDownload args (applyCreates st (requestDownload args st).2)).2.length ≤ 1)
    ∧ (∀ t m, truthyI args.tmdbId = some t →
        st.movies.find? (fun r => r.tmdbId == t) = some m →
        requestDownload args st
          = ((if m.hasFile then "✅ Movie already exists in your library and is downloaded."
              else "⏳ Movie is already in the library and may be downloading."), []))
    ∧ (∀ t s, truthyI args.tmdbId = none → truthyI args.tvdbId = some t →
        st.series.find? (fun r => r.tvdbId == t) = some s →
        requestDownload args st = ("✅ Series already exists in your library.", [])) := by
  refine ⟨?_, ?_, ?_⟩
  · rcases h1 : truthyI args.tmdbId with _ | t
    · rcases h2 : truthyI args.tvdbId with _ | t
      · simp [requestDownload, h1, h2, applyCreates]
      · rcases h3 : st.series.find? (fun r => r.tvdbId == t) with _ | s
        · simp [requestDownload, h1, h2, h3, applyCreates, List.find?_append, List.find?]
        · simp [requestDownload, h1, h2, h3, applyCreates]
    · rcases h2 : st.movies.find? (fun r => r.tmdbId == t) with _ | m
      · simp [requestDownload, h1, h2, applyCreates, List.find?_append, List.find?]
      · by_cases hf : m.hasFile <;> simp [requestDownload, h1, h2, hf, applyCreates]
  · intro t m h1 h2
    by_cases hf : m.hasFile <;> simp [requestDownload, h1, h2, hf]
  · intro t s h1 h2 h3
    simp [requestDownload, h1, h2, h3]

/-- Witness for C1 (amended): a series already in the library short-circuits
with the single already-exists message and no create command. -/
theorem requestDownload_idempotent_amended_witness :
    requestDownload { tmdbId := none, tvdbId := some 5 } libSeriesNoFile
      = ("✅ Series already exists in your library.", []) :=
  (requestDownload_idempotent_amended { tmdbId := none, tvdbId := some 5 }
      libSeriesNoFile).2.2 5 { tvdbId := 5, hasFile := false } (by decide) (by decide)
    (by decide)

/-- Step equation of the loop: a failed page request ends the loop with the
thrown error after that one request. -/
lemma queueGo_succ_error {Bq : ℕ → Except BErr QueuePage} {mid : Option ℤ}
    {n p : ℕ} {e : BErr} (hB : Bq p = .error e) :
    queueGo Bq mid (n + 1) p = (.error e, [p]) := by
  simp only [queueGo, hB]

/-- Step equation of the loop: a match on the current page returns it at once. -/
lemma queueGo_succ_found {Bq : ℕ → Except BErr QueuePage} {mid : Option ℤ}
    {n p : ℕ} {resp : QueuePage} {it : QueueItem} (hB : Bq p = .ok resp)
    (hf : resp.records.find? (queueMatch mid) = some it) :
    queueGo Bq mid (n + 1) p = (.ok (some it), [p]) := by
  simp only [queueGo, hB, hf]

/-- Step equation of the loop: no match and an exhausted total stop the scan. -/
lemma queueGo_succ_stop {Bq : ℕ → Except BErr QueuePage} {mid : Option ℤ}
    {n p : ℕ} {resp : QueuePage} (hB : Bq p = .ok resp)
    (hf : resp.records.find? (queueMatch mid) = none)
    (hc : ¬p * pageSize < resp.totalRecords) :
    queueGo Bq mid (n + 1) p = (.ok none, [p]) := by
  simp only [queueGo, hB, hf, if_neg hc]

/-- Step equation of the loop: no match with records still outstanding moves
on to the next page. -/
lemma queueGo_succ_cont {Bq : ℕ → Except BErr QueuePage} {mid : Option ℤ}
    {n p : ℕ} {resp : QueuePage} (hB : Bq p = .ok resp)
    (hf : resp.records.find? (queueMatch mid) = none)
    (hc : p * pageSize < resp.totalRecords) :
    queueGo Bq mid (n + 1) p
      = ((queueGo Bq mid n (p + 1)).1, p :: (queueGo Bq mid n (p + 1)).2) := by
  simp only [queueGo, hB, hf, if_pos hc]

/-- The pages requested by the pagination loop form the consecutive block
starting at the entry page. -/
lemma queueGo_trace_range (Bq : ℕ → Except BErr QueuePage) (mid : Option ℤ) :
    ∀ (fuel p : ℕ),
      (queueGo Bq mid fuel p).2 = List.range' p ((queueGo Bq mid fuel p).2).length := by
  intro fuel
  induction fuel with
  | zero => intro p; simp [queueGo]
  | succ n ih =>
    intro p
    rcases hB : Bq p with e | resp
    · rw [queueGo_succ_error hB]
      simp [List.range'_one]
    · rcases hf : resp.records.find? (queueMatch mid) with _ | it
      · by_cases hc : p * pageSize < resp.totalRecords
        · rw [queueGo_succ_cont hB hf hc]
          simp only [List.length_cons, List.range'_succ]
          exact congrArg (fun l => p :: l) (ih (p + 1))
        · rw [queueGo_succ_stop hB hf hc]
          simp [List.range'_one]
      · rw [queueGo_succ_found hB hf]
        simp [List.range'_one]

/-- If the loop requested page `q + 1`, it had requested page `q`, found no
match in that very response, and the total-record count of that same response
justified continuing. -/
lemma queueGo_mem_succ (Bq : ℕ → Except BErr QueuePage) (mid : Option ℤ) :
    ∀ (fuel p q : ℕ), (q + 1) ∈ (queueGo Bq mid fuel p).2 →
      q + 1 = p ∨
        (q ∈ (queueGo Bq mid fuel p).2 ∧
          ∃ r, Bq q = .ok r ∧ r.records.find? (queueMatch mid) = none
            ∧ q * pageSize < r.totalRecords) := by
  intro fuel
  induction fuel with
  | zero => intro p q h; simp [queueGo] at h
  | succ n ih =>
    intro p q h
    rcases hB : Bq p with e | resp
    · rw [queueGo_succ_error hB] at h
      simp at h
      left
      exact h
    · rcases hf : resp.records.find? (queueMatch mid) with _ | it
      · by_cases hc : p * pageSize < resp.totalRecords
        · rw [queueGo_succ_cont hB hf hc] at h ⊢
          simp only [List.mem_cons] at h
          rcases h with h | h
          · left
            exact h
          · rcases ih (p + 1) q h with h1 | ⟨hmem, hr⟩
            · right
              have hqp : q = p := by omega
              subst hqp
              exact ⟨List.mem_cons_self q _, resp, hB, hf, hc⟩
            · right
              exact ⟨List.mem_cons_of_mem _ hmem, hr⟩
        · rw [queueGo_succ_stop hB hf hc] at h
          simp at h
          left
          exact h
      · rw [queueGo_succ_found hB hf] at h
        simp at h
        left
        exact h

/-- Upper bound on the number of pages the loop requests when every page
response reports the same total record count `T`: starting from page `p ≥ 1`
it requests at most `max p ⌈T / 100⌉ + 1 - p` pages. -/
lemma queueGo_length_bound (Bq : ℕ → Except BErr QueuePage) (mid : Option ℤ) (T : ℕ)
    (hB : ∀ p r, Bq p = .ok r → r.totalRecords = T) :
    ∀ (fuel p : ℕ), 1 ≤ p →
      ((queueGo Bq mid fuel p).2).length + p ≤ max p ((T + 99) / 100) + 1 := by
  intro fuel
  induction fuel with
  | zero =>
    intro p hp
    have hml := Nat.le_max_left p ((T + 99) / 100)
    simp [queueGo]
    omega
  | succ n ih =>
    intro p hp
    have hml := Nat.le_max_left p ((T + 99) / 100)
    rcases hBp : Bq p with e | resp
    · rw [queueGo_succ_error hBp]
      simp
      omega
    · rcases hf : resp.records.find? (queueMatch mid) with _ | it
      · by_cases hc : p * pageSize < resp.totalRecords
        · rw [queueGo_succ_cont hBp hf hc]
          have hT : resp.totalRecords = T := hB p resp hBp
          have hple : p + 1 ≤ (T + 99) / 100 := by
            rw [Nat.le_div_iff_mul_le (by norm_num : 0 < 100)]
            have hlt : p * 100 < T := by
              rw [hT] at hc
              simpa [pageSize] using hc
            omega
          have h2 := ih (p + 1) (by omega)
          rw [Nat.max_eq_right hple] at h2
          have h3 : (T + 99) / 100 ≤ max p ((T + 99) / 100) := Nat.le_max_right _ _
          simp only [List.length_cons]
          omega
        · rw [queueGo_succ_stop hBp hf hc]
          simp
          omega
      · rw [queueGo_succ_found hBp hf]
        simp
        omega

/-- Every page of a fixed queue reports the length of the queue as its total. -/
lemma pagesOf_total (queue : List QueueItem) :
    ∀ p r, pagesOf queue p = .ok r → r.totalRecords = queue.length := by
  intro p r h
  simp only [pagesOf] at h
  injection h with h2
  rw [← h2]

/-- Counterexample to C5 as stated: on an empty queue (backend-reported
`totalRecords = 0`) the do-while loop still issues one page request, which
exceeds `⌈totalRecords / pageSize⌉ = 0`. -/
theorem queueLoop_empty_exceeds_ceil :
    ((queueLoop (pagesOf []) (some 7) 5).2).length = 1
    ∧ (List.length ([] : List QueueItem) + 99) / 100 = 0 := by
  decide

/-- Claim C5 (amended): queue correlation issues at most
`max 1 ⌈totalRecords / pageSize⌉` page requests (the do-while body always
runs once, so one request is issued even when `totalRecords = 0`); a page
request beyond page `q` can only happen when page `q` produced no match and
its total still warranted continuing; and for `totalRecords = 250` at most 3
pages are fetched. -/
theorem queueLoop_page_bound_amended (queue : List QueueItem) (mid : Option ℤ)
    (fuel : ℕ) :
    ((queueLoop (pagesOf queue) mid fuel).2).length
        ≤ max 1 ((queue.length + 99) / 100)
    ∧ (∀ q, 1 ≤ q → (q + 1) ∈ (queueLoop (pagesOf queue) mid fuel).2 →
        ∃ r, pagesOf queue q = .ok r ∧ r.records.find? (queueMatch mid) = none
          ∧ q * pageSize < r.totalRecords)
    ∧ (queue.length = 250 →
        ((queueLoop (pagesOf queue) mid fuel).2).length ≤ 3) := by
  have hb : ((queueLoop (pagesOf queue) mid fuel).2).length + 1
      ≤ max 1 ((queue.length + 99) / 100) + 1 :=
    queueGo_length_bound (pagesOf queue) mid queue.length
      (pagesOf_total queue) fuel 1 (le_refl 1)
  refine ⟨by omega, ?_, ?_⟩
  · intro q hq hmem
    rcases queueGo_mem_succ (pagesOf queue) mid fuel 1 q hmem with h | ⟨_, hr⟩
    · omega
    · exact hr
  · intro h250
    rw [h250] at hb
    norm_num at hb
    omega

/-- Witness for C5 (amended): a 250-record queue with no matching entry is
walked in at most 3 page requests. -/
theorem queueLoop_page_bound_amended_witness :
    ((queueLoop (pagesOf (List.replicate 250 queueItemEx)) (some 7) 10).2).length ≤ 3 :=
  (queueLoop_page_bound_amended (List.replicate 250 queueItemEx) (some 7) 10).2.2
    (List.length_replicate 250 queueItemEx)

/-- Claim C7: the pages requested by queue correlation are exactly
`1, 2, …, k` in increasing order, and each continuation onto page `q + 1` is
justified by the response of page `q` itself — no match among its records and
`q * pageSize` below the `totalRecords` of that same response. -/
theorem queueLoop_pages_increasing_fresh_total (Bq : ℕ → Except BErr QueuePage)
    (mid : Option ℤ) (fuel : ℕ) :
    (queueLoop Bq mid fuel).2 = List.range' 1 ((queueLoop Bq mid fuel).2).length
    ∧ (∀ q, 1 ≤ q → (q + 1) ∈ (queueLoop Bq mid fuel).2 →
        q ∈ (queueLoop Bq mid fuel).2
        ∧ ∃ r, Bq q = .ok r ∧ r.records.find? (queueMatch mid) = none
            ∧ q * pageSize < r.totalRecords) := by
  constructor
  · exact queueGo_trace_range Bq mid fuel 1
  · intro q hq hmem
    rcases queueGo_mem_succ Bq mid fuel 1 q hmem with h | h
    · omega
    · exact h

/-- Witness for C7: when page 2 is fetched against `flat150`, page 1 was
fetched, matched nothing, and its own total (150) justified continuing. -/
theorem queueLoop_pages_increasing_fresh_total_witness :
    1 ∈ (queueLoop flat150 (some 3) 5).2
    ∧ ∃ r, flat150 1 = .ok r ∧ r.records.find? (queueMatch (some 3)) = none
        ∧ 1 * pageSize < r.totalRecords :=
  (queueLoop_pages_increasing_fresh_total flat150 (some 3) 5).2 1 (by decide)
    (by decide)

/-- Unfolding of `maxScore` over cons. -/
lemma maxScore_cons (sc : Movieish → ℕ) (m : Movieish) (l : List Movieish) :
    maxScore sc (m :: l) = max (sc m) (maxScore sc l) := rfl

/-- Invariant of the selection loop: entering it with current best `best` and
best score `sc best`, it returns the first element of `best :: cs` attaining
the maximum score. -/
lemma selectLoop_find_max (sc : Movieish → ℕ) :
    ∀ (cs : List Movieish) (best : Movieish),
      (best :: cs).find? (fun x => sc x == maxScore sc (best :: cs))
        = some (selectLoop sc cs best (some (sc best))) := by
  intro cs
  induction cs with
  | nil =>
    intro best
    simp [selectLoop, maxScore, List.find?]
  | cons m rest ih =>
    intro best
    by_cases hgt : sc best < sc m
    · have hsel : selectLoop sc (m :: rest) best (some (sc best))
          = selectLoop sc rest m (some (sc m)) := by
        simp [selectLoop, scoreGt, hgt]
      have h1 : sc m ≤ maxScore sc (m :: rest) := by
        rw [maxScore_cons]
        exact Nat.le_max_left _ _
      have hM : maxScore sc (best :: m :: rest) = maxScore sc (m :: rest) := by
        rw [maxScore_cons sc best (m :: rest)]
        exact Nat.max_eq_right (le_trans (Nat.le_of_lt hgt) h1)
      have hhead : ¬(sc best == maxScore sc (m :: rest)) = true := by
        simp only [Bool.not_eq_true, beq_eq_false_iff_ne, ne_eq]
        omega
      have hstep : List.find? (fun x => sc x == maxScore sc (m :: rest)) (best :: m :: rest)
          = List.find? (fun x => sc x == maxScore sc (m :: rest)) (m :: rest) :=
        List.find?_cons_of_neg _ hhead
      rw [hsel, hM, hstep]
      exact ih m
    · have hml : sc m ≤ sc best := Nat.le_of_not_lt hgt
      have hsel : selectLoop sc (m :: rest) best (some (sc best))
          = selectLoop sc rest best (some (sc best)) := by
        simp [selectLoop, scoreGt, Nat.not_lt.mpr hml]
      have hM : maxScore sc (best :: m :: rest) = maxScore sc (best :: rest) := by
        simp only [maxScore_cons]
        rw [← Nat.max_assoc, Nat.max_eq_left hml]
      rw [hsel, hM]
      have hble : sc best ≤ maxScore sc (best :: rest) := by
        rw [maxScore_cons]
        exact Nat.le_max_left _ _
      by_cases hbe : (sc best == maxScore sc (best :: rest)) = true
      · have ihb := ih best
        have hstep1 : List.find? (fun x => sc x == maxScore sc (best :: rest))
              (best :: m :: rest) = some best :=
          List.find?_cons_of_pos _ hbe
        have hstep2 : List.find? (fun x => sc x == maxScore sc (best :: rest))
              (best :: rest) = some best :=
          List.find?_cons_of_pos _ hbe
        rw [hstep2] at ihb
        rw [hstep1]
        exact ihb
      · have hmne : ¬(sc m == maxScore sc (best :: rest)) = true := by
          simp only [Bool.not_eq_true, beq_eq_false_iff_ne, ne_eq] at hbe ⊢
          omega
        have ihb := ih best
        have hstep1 : List.find? (fun x => sc x == maxScore sc (best :: rest))
              (best :: m :: rest)
            = List.find? (fun x => sc x == maxScore sc (best :: rest)) (m :: rest) :=
          List.find?_cons_of_neg _ hbe
        have hstep2 : List.find? (fun x => sc x == maxScore sc (best :: rest))
              (m :: rest)
            = List.find? (fun x => sc x == maxScore sc (best :: rest)) rest :=
          List.find?_cons_of_neg _ hmne
        have hstep3 : List.find? (fun x => sc x == maxScore sc (best :: rest))
              (best :: rest)
            = List.find? (fun x => sc x == maxScore sc (best :: rest)) rest :=
          List.find?_cons_of_neg _ hbe
        rw [hstep3] at ihb
        rw [hstep1, hstep2]
        exact ihb

/-- Claim C4: title-based resolution returns exactly the first candidate of
the (nonempty) list that attains the maximum score — ties keep the earliest
candidate — so resolution over the same list and input is deterministic. -/
theorem resolveByTitle_first_max (title : String) (year : Option ℤ)
    (c : Movieish) (cs : List Movieish) :
    (c :: cs).find?
        (fun x => scoreCandidate (normalize title) year x
          == maxScore (scoreCandidate (normalize title) year) (c :: cs))
      = some (resolveByTitle title year c cs) := by
  have hstart : resolveByTitle title year c cs
      = selectLoop (scoreCandidate (normalize title) year) cs c
          (some (scoreCandidate (normalize title) year c)) := by
    simp [resolveByTitle, selectLoop, scoreGt]
  rw [hstart]
  exact selectLoop_find_max (scoreCandidate (normalize title) year) cs c

/-- Counterexample to C8 as stated: `get_activity` has no catch around its
queue fetch, so a failing backend call escapes the operation as a raw thrown
error rather than a tagged payload. -/
theorem getActivity_raw_error_escapes :
    getActivity "radarr" (.error connRefused) (.ok []) = .thrown connRefused := by
  decide

/-- Claim C8 (amended): `check_status` never lets a backend failure escape —
every call returns a tagged content payload, and a failing resolution call is
reported as a tagged error carrying the backend-provided message — but
`get_activity` and `get_wanted` have no catch, so there a failing backend
call escapes as the raw thrown error. -/
theorem error_classification_amended :
    (∀ (mt : String) (a : CheckArgs) (R : RadarrOps) (S : SonarrOps) (fuel : ℕ),
       ∃ b, checkStatus mt a R S fuel = .content b)
    ∧ (∀ (a : CheckArgs) (R : RadarrOps) (S : SonarrOps) (fuel : ℕ) (i : ℤ) (e : BErr),
        truthyI a.id = some i → R.getMovie i = .error e →
        checkStatus "movie" a R S fuel = .content (.errorCaught (checkStatusErrText e)))
    ∧ (∀ (e : BErr) (sq : Except BErr (List ActivityItem)),
        getActivity "radarr" (.error e) sq = .thrown e)
    ∧ (∀ (e : BErr) (fetch : WantedEndpoint → Except BErr (List String)) (s : String),
        s ∈ sonarrSynonyms → fetch WantedEndpoint.sonarrMissing = .error e →
        (getWanted s fetch).1 = .thrown e) := by
  refine ⟨?_, ?_, ?_, ?_⟩
  · intro mt a R S fuel
    rcases h : checkStatusTry mt a R S fuel with e | b
    · exact ⟨.errorCaught (checkStatusErrText e), by simp [checkStatus, h]⟩
    · exact ⟨b, by simp [checkStatus, h]⟩
  · intro a R S fuel i e h1 h2
    simp [checkStatus, checkStatusTry, resolveMovie, h1, h2]
  · intro e sq
    simp [getActivity]
  · intro e fetch s hmem hfe
    have hr : s ∉ radarrSynonyms := sonarr_not_radarr s hmem
    simp [getWanted, hmem, hr, hfe]

/-- Witness for C8 (amended): with a backend whose every call fails with a
404-style error, `check_status` by internal id returns the tagged error
payload carrying the backend-provided message. -/
theorem error_classification_amended_witness :
    checkStatus "movie" { id := some 3, tmdbId := none, tvdbId := none
                          title := none, year := none }
        { getMovie := fun _ => .error { responseDataMessage := some "Movie not found"
                                        message := "Request failed with status code 404" }
          listMovies := .ok []
          lookupMovies := .ok []
          queuePage := pagesOf [] }
        { getSeries := fun _ => .error connRefused, listSeries := .ok [] } 5
      = .content (.errorCaught (checkStatusErrText
          { responseDataMessage := some "Movie not found"
            message := "Request failed with status code 404" })) :=
  error_classification_amended.2.1
    { id := some 3, tmdbId := none, tvdbId := none, title := none, year := none }
    { getMovie := fun _ => .error { responseDataMessage := some "Movie not found"
                                    message := "Request failed with status code 404" }
      listMovies := .ok []
      lookupMovies := .ok []
      queuePage := pagesOf [] }
    { getSeries := fun _ => .error connRefused, listSeries := .ok [] } 5 3
    { responseDataMessage := some "Movie not found"
      message := "Request failed with status code 404" }
    (by decide) rfl

end MCParr
